import Mathlib

/-!
Shallow embedding of the `tester` package of the `vt` repository
(`go/tester/tester.go` and `go/tester/tracer.go`): the mode-state machine
(`testerState`), the run loop (`Tester.Run` / `Tester.runQuery`), and the
trace-recorder decorator (`Tracer.runQuery` / `Tracer.trace`).

External collaborators (SQL parser classification, the version oracle,
`os.Remove`, the two database connections, `json.Marshal` / `json.Indent`,
the trace-file writer and the inner query runner) are modelled as explicit
environment records of pure functions; calls to the reporter and the
backends are recorded in explicit event / report logs so that execution
counts and reporting behaviour can be stated and proved.
-/

namespace VT

/-- Errors are carried as their message strings (Go `error` values). -/
abbrev GoError := String

/-- Classification of a parsed SQL statement. The engine only ever inspects
`sqlparser.IsDMLStatement` (true for insert/update/delete) and whether the
statement is a `sqlparser.SelectStatement`, so the AST is embedded as this
classification. -/
inductive Statement
  | selectStmt
  | insertStmt
  | updateStmt
  | deleteStmt
  | otherStmt
deriving DecidableEq, Repr

/-- `sqlparser.IsDMLStatement`: true exactly for insert/update/delete. -/
def IsDMLStatement : Statement → Bool
  | .insertStmt => true
  | .updateStmt => true
  | .deleteStmt => true
  | _ => false

/-- The type assertion `cfg.ast.(sqlparser.SelectStatement)` in Go. -/
def isSelectStatement : Statement → Bool
  | .selectStmt => true
  | _ => false

/-- The directive kinds (`typ` package) that `Tester.Run` branches on; the
unsupported constructor carries `q.Type.String()` for the default branch. -/
inductive Typ
  | query
  | skip
  | skipIfBelowVersion
  | error
  | vexplain
  | waitForAuthoritative
  | removeFile
  | vitessOnly
  | mysqlOnly
  | reference
  | unsupported (name : String)
deriving DecidableEq, Repr

/-- `data.Query`: one directive/query record of the input stream. -/
structure Query where
  query : String
  line : Nat
  type : Typ := .query
deriving DecidableEq, Repr

/-- `testerState` from tester.go: the mode state machine's record. -/
structure testerState where
  skip : Bool := false
  skipBinary : String := ""
  skipVersion : Int := 0
  vitessOnly : Bool := false
  mysqlOnly : Bool := false
  reference : Bool := false
deriving DecidableEq, Repr

/-- `testerState.referenceNext`: mark the next query as a reference capture
unless an only-scope is active or a skip is pending. -/
def testerState.referenceNext (state : testerState) : testerState :=
  if state.vitessOnly || state.mysqlOnly || state.skip then state
  else { state with reference := true }

/-- `testerState.shouldReference`: read-and-clear of `reference`. -/
def testerState.shouldReference (state : testerState) : Bool × testerState :=
  if state.reference then (true, { state with reference := false })
  else (false, state)

/-- `testerState.skipNext`: mark the next query to be skipped unless an
only-scope is active or a reference capture is pending. -/
def testerState.skipNext (state : testerState) : testerState :=
  if state.vitessOnly || state.mysqlOnly || state.reference then state
  else { state with skip := true }

/-- `testerState.skipIfBelow`: record the version gate. -/
def testerState.skipIfBelow (state : testerState) (binary : String)
    (version : Int) : testerState :=
  { state with skipBinary := binary, skipVersion := version }

/-- `testerState.shouldSkip`: evaluate and clear `skip`, then the version
gate. `oracle` embeds `utils.BinaryIsAtLeastAtVersion`. -/
def testerState.shouldSkip (oracle : Int → String → Bool)
    (state : testerState) : Bool × testerState :=
  if state.skip then (true, { state with skip := false })
  else if state.skipBinary ≠ "" then
    let okayToRun := oracle state.skipVersion state.skipBinary
    (!okayToRun, { state with skipBinary := "" })
  else (false, state)

/-- `testerState.beginVitessOnly`. -/
def testerState.beginVitessOnly (state : testerState) :
    Option GoError × testerState :=
  if state.vitessOnly then (some ("nested vitess_only begin"), state)
  else if state.mysqlOnly then
    (some ("cannot begin vitess_only within mysql_only"), state)
  else (none, { state with vitessOnly := true })

/-- `testerState.endVitessOnly`. -/
def testerState.endVitessOnly (state : testerState) :
    Option GoError × testerState :=
  if !state.vitessOnly then (some ("no vitess_only to end"), state)
  else (none, { state with vitessOnly := false })

/-- `testerState.beginMySQLOnly`. -/
def testerState.beginMySQLOnly (state : testerState) :
    Option GoError × testerState :=
  if state.mysqlOnly then (some ("nested mysql_only begin"), state)
  else if state.vitessOnly then
    (some ("cannot begin mysql_only within vitess_only"), state)
  else (none, { state with mysqlOnly := true })

/-- `testerState.endMySQLOnly` (the Go code reuses the vitess message). -/
def testerState.endMySQLOnly (state : testerState) :
    Option GoError × testerState :=
  if !state.mysqlOnly then (some ("no vitess_only to end"), state)
  else (none, { state with mysqlOnly := false })

/-! ### Trace recorder (tracer.go) -/

/-- Backend/file effects of the tracer, recorded in order of occurrence. -/
inductive Event
  /-- `VtConn.ExecuteFetch sql` (an execution against the target backend). -/
  | execTarget (sql : String)
  /-- `MySQLConn.ExecuteFetch sql` (an execution against the reference). -/
  | execMySQL (sql : String)
  /-- Delegation to the inner query runner. -/
  | innerRun (q : String)
  /-- `traceFile.Write` of the given bytes (attempted; may fail). -/
  | fileWrite (bytes : String)
deriving DecidableEq, Repr

/-- Number of target-backend executions in an event log. -/
def countTarget : List Event → Nat
  | [] => 0
  | .execTarget _ :: es => countTarget es + 1
  | _ :: es => countTarget es

/-- Number of reference-backend executions in an event log. -/
def countMySQL : List Event → Nat
  | [] => 0
  | .execMySQL _ :: es => countMySQL es + 1
  | _ :: es => countMySQL es

/-- Number of inner-runner invocations in an event log. -/
def countInner : List Event → Nat
  | [] => 0
  | .innerRun _ :: es => countInner es + 1
  | _ :: es => countInner es

/-- `QueryRunConfig` from tester.go. -/
structure QueryRunConfig where
  ast : Statement
  vitess : Bool
  mysql : Bool
  reference : Bool
deriving DecidableEq, Repr

/-- Mutable state of a `Tracer`: whether `traceFile` is non-nil, the
`alreadyWrittenTraces` flag, and the bytes successfully appended so far. -/
structure TracerState where
  traceFileOpen : Bool := true
  alreadyWrittenTraces : Bool := false
  fileContents : String := ""
deriving DecidableEq, Repr

/-- External collaborators of the tracer, as pure oracles.
`vexplainFetch` returns the rowset of `VtConn.ExecuteFetch` (rows of cell
strings) or an error; `jsonMarshal` / `jsonIndent` embed `json.Marshal` /
`json.Indent`; `fileWrite` gives the outcome of `traceFile.Write`;
`mysqlExec` the outcome of `MySQLConn.ExecuteFetch`; `innerRun` the error
result of the wrapped inner query runner. -/
structure TraceEnv where
  jsonMarshal : String → Except GoError String
  vexplainFetch : String → Except GoError (List (List String))
  jsonIndent : String → Except GoError String
  fileWrite : String → Option GoError
  mysqlExec : String → Option GoError
  innerRun : Query → Bool → QueryRunConfig → Option GoError

/-- `vterrors.Aggregate`: nil on an empty list, otherwise one single error
combining all messages. -/
def Aggregate : List GoError → Option GoError
  | [] => none
  | [e] => some e
  | e :: es =>
    match Aggregate es with
    | some rest => some (e ++ "\n" ++ rest)
    | none => some e

/-- Errors collected into the `errs` slice of the DML path, as a list. -/
def optToList : Option GoError → List GoError
  | some e => [e]
  | none => []

/-- `rs.Rows[0][0].ToString()`: the first cell of a fetched rowset (the Go
code indexes unconditionally; the defaults stand in for the out-of-range
panic, which the trace protocol never hits on a successful fetch). -/
def firstCell (rows : List (List String)) : String :=
  (rows.getD 0 []).getD 0 ("")

/-- The JSON object `Tracer.trace` builds for one query (without the
separating comma). -/
def traceEntryBody (queryJSON : String) (line : Nat)
    (prettyTrace : String) : String :=
  "\x7b\"Query\": " ++ queryJSON ++ ", \"LineNumber\": \"" ++
  toString line ++ "\", \"Trace\": " ++ prettyTrace ++ "\x7d"

/-- The JSON entry `Tracer.trace` builds in memory for one query: the
object, preceded by a comma when `alreadyWrittenTraces` was already set. -/
def traceEntryFor (alreadyWritten : Bool) (queryJSON : String) (line : Nat)
    (prettyTrace : String) : String :=
  (if alreadyWritten then "," else "") ++
    traceEntryBody queryJSON line prettyTrace

/-- `Tracer.trace`: marshal the query text, fetch `vexplain trace <query>`
from the target connection, take the first result cell, pretty-indent it,
build the JSON entry (comma-prefixed when `alreadyWrittenTraces`), set
`alreadyWrittenTraces`, and write the entry to the trace file. Returns the
error outcome, the new tracer state and the event log. -/
def Tracer.trace (env : TraceEnv) (t : TracerState) (query : Query) :
    Option GoError × TracerState × List Event :=
  match env.jsonMarshal query.query with
  | .error e => (some e, t, [])
  | .ok queryJSON =>
    let sql := "vexplain trace " ++ query.query
    match env.vexplainFetch sql with
    | .error e => (some e, t, [.execTarget sql])
    | .ok rows =>
      match env.jsonIndent (firstCell rows) with
      | .error e => (some e, t, [.execTarget sql])
      | .ok prettyTrace =>
        let traceEntry :=
          traceEntryFor t.alreadyWrittenTraces queryJSON query.line prettyTrace
        let t := { t with alreadyWrittenTraces := true }
        match env.fileWrite traceEntry with
        | some e => (some e, t, [.execTarget sql, .fileWrite traceEntry])
        | none =>
          (none, { t with fileContents := t.fileContents ++ traceEntry },
            [.execTarget sql, .fileWrite traceEntry])

/-- `Tracer.runQuery`: DML statements with an open trace file, no expected
error and the target in scope are run once while tracing (plus once against
the reference when in scope) without invoking the inner runner; every other
statement is delegated to the inner runner, followed by a trace capture for
selects/DMLs with the target in scope when the inner runner succeeded. -/
def Tracer.runQuery (env : TraceEnv) (t : TracerState) (q : Query)
    (expectErr : Bool) (cfg : QueryRunConfig) :
    Option GoError × TracerState × List Event :=
  if IsDMLStatement cfg.ast && t.traceFileOpen && !expectErr && cfg.vitess then
    let r := Tracer.trace env t q
    let errs := optToList r.1
    if cfg.mysql then
      let evs := r.2.2 ++ [.execMySQL q.query]
      match env.mysqlExec q.query with
      | some e => (Aggregate (errs ++ [e]), r.2.1, evs)
      | none => (Aggregate errs, r.2.1, evs)
    else
      (Aggregate errs, r.2.1, r.2.2)
  else
    match env.innerRun q expectErr cfg with
    | some e => (some e, t, [.innerRun q.query])
    | none =>
      if cfg.vitess && (isSelectStatement cfg.ast || IsDMLStatement cfg.ast) then
        let r := Tracer.trace env t q
        (r.1, r.2.1, .innerRun q.query :: r.2.2)
      else
        (none, t, [.innerRun q.query])

/-! ### Run loop (tester.go) -/

/-- One call made to the external `Reporter`, in order of occurrence. -/
inductive Report
  | addTestCase (q : String) (line : Nat)
  | endTestCase
  | addFailure (e : GoError)
  | addInfo (text : String)
deriving DecidableEq, Repr

/-- The mutable fields of `Tester` that the run loop touches. -/
structure Tester where
  state : testerState := {}
  expectedErrs : Bool := false
  vexplain : String := ""
deriving DecidableEq, Repr

/-- External collaborators of the run loop, as pure oracles.
`oracle` embeds `utils.BinaryIsAtLeastAtVersion`; `removeFile` the outcome
of `os.Remove`; `parse` the result of `sqlparser.NewTestParser().Parse`
(classification only); `runnerErr` the error result of `t.qr.runQuery`;
`vexplainFetch` the result of `VtConn.ExecuteFetch` for the pending
vexplain variant: either the fetched rowset, or an error — in which case
the Go result pointer is nil, so any later field access on it panics;
`waitAuth` the failures `waitAuthoritative` hands to the reporter (it never
touches the mode state). -/
structure RunEnv where
  oracle : Int → String → Bool
  removeFile : String → Option GoError
  parse : String → Except GoError Statement
  runnerErr : Query → Bool → QueryRunConfig → Option GoError
  vexplainFetch : String → Except GoError (List (List String))
  waitAuth : String → List GoError

/-- The outcome of one iteration of the `for` loop in `Tester.Run`:
the loop either continues with the updated tester (`ok`), returns an error
from `Run` (`ret`, the failed-file-removal `return`), or the process
panics (`panic`, the nil-result dereference at the `VExplain Output` line
after a failed vexplain-variant fetch); reporter calls already made before
a panic are kept. -/
inductive StepResult
  | ok (t : Tester) (reps : List Report)
  | ret (e : GoError)
  | panicked (reps : List Report)
deriving DecidableEq, Repr

/-- `Tester.runQuery`: skip check, test-case registration, parse, build the
`QueryRunConfig` from the current flags, dispatch through the pipeline,
report failure, end the test case, and clear `expectedErrs`. Returns the
updated tester and the reporter calls made. -/
def Tester.runQuery (env : RunEnv) (t : Tester) (q : Query) :
    Tester × List Report :=
  let skipRes := t.state.shouldSkip env.oracle
  let t := { t with state := skipRes.2 }
  if skipRes.1 then (t, [])
  else
    match env.parse q.query with
    | .error e => (t, [.addTestCase q.query q.line, .addFailure e])
    | .ok ast =>
      let refRes := t.state.shouldReference
      let t := { t with state := refRes.2 }
      let cfg : QueryRunConfig :=
        { ast := ast, vitess := !t.state.mysqlOnly,
          mysql := !t.state.vitessOnly, reference := refRes.1 }
      let failRep :=
        match env.runnerErr q t.expectedErrs cfg with
        | some e => [Report.addFailure e]
        | none => []
      ({ t with expectedErrs := false },
        [Report.addTestCase q.query q.line] ++ failRep ++ [Report.endTestCase])

/-- `vitessOrMySQLOnly`: dispatch a `vitess_only`/`mysql_only` directive to
its begin/end handler, rejecting malformed argument lists. -/
def vitessOrMySQLOnly (query : String)
    (b e : testerState → Option GoError × testerState)
    (state : testerState) : Option GoError × testerState :=
  match query.splitOn (" ") with
  | [_, "begin"] => b state
  | [_, "end"] => e state
  | [_, _] => (some ("incorrect syntax in: " ++ query), state)
  | _ => (some ("incorrect syntax in: " ++ query), state)

/-- One iteration of the `for` loop in `Tester.Run`: handle a single
directive. In the query case with a pending vexplain mode, the fetch error
is reported via `AddFailure`, but the code then evaluates
`result.Rows[0][0].ToString()` on the nil result unconditionally and the
process panics before `t.runQuery(q)` runs. -/
def Tester.runStep (env : RunEnv) (t : Tester) (q : Query) : StepResult :=
  match q.type with
  | .skip => .ok { t with state := t.state.skipNext } []
  | .skipIfBelowVersion =>
    match q.query.splitOn (" ") with
    | [_, binary, verStr] =>
      match verStr.toInt? with
      | none =>
        .ok t [.addFailure ("strconv.Atoi: parsing " ++ verStr)]
      | some v => .ok { t with state := t.state.skipIfBelow binary v } []
    | _ =>
      .ok t [.addFailure
        ("incorrect syntax for typ.Q_SKIP_IF_BELOW_VERSION in: " ++ q.query)]
  | .error => .ok { t with expectedErrs := true } []
  | .vexplain =>
    match q.query.splitOn (" ") with
    | [_, mode] => .ok { t with vexplain := mode } []
    | _ =>
      .ok t [.addFailure ("incorrect syntax for typ.VExplain in: " ++ q.query)]
  | .waitForAuthoritative => .ok t ((env.waitAuth q.query).map Report.addFailure)
  | .query =>
    if t.vexplain ≠ "" then
      let fetchRes :=
        env.vexplainFetch ("vexplain " ++ t.vexplain ++ " " ++ q.query)
      let t := { t with vexplain := "" }
      match fetchRes with
      | .error e =>
        -- AddFailure(err) runs, then result.Rows[0][0] dereferences nil
        .panicked [.addFailure e]
      | .ok rows =>
        let info :=
          Report.addInfo ("VExplain Output:\n " ++ firstCell rows ++ "\n")
        let r := Tester.runQuery env t q
        .ok r.1 ([info] ++ r.2)
    else
      let r := Tester.runQuery env t q
      .ok r.1 r.2
  | .removeFile =>
    match env.removeFile q.query.trim with
    | some e => .ret ("failed to remove file: " ++ e)
    | none => .ok t []
  | .vitessOnly =>
    let r := vitessOrMySQLOnly q.query
      testerState.beginVitessOnly testerState.endVitessOnly t.state
    let t := { t with state := r.2 }
    match r.1 with
    | some e => .ok t [.addFailure e]
    | none => .ok t []
  | .mysqlOnly =>
    let r := vitessOrMySQLOnly q.query
      testerState.beginMySQLOnly testerState.endMySQLOnly t.state
    let t := { t with state := r.2 }
    match r.1 with
    | some e => .ok t [.addFailure e]
    | none => .ok t []
  | .reference => .ok { t with state := t.state.referenceNext } []
  | .unsupported name => .ok t [(.addFailure (name ++ " not supported"))]

/-- How a whole run over the directive stream ends: the end of the stream
was reached, `Run` returned an error (failed file removal), or the process
panicked (nil-result dereference after a failed vexplain-variant fetch). -/
inductive LoopExit
  | normal
  | errored (e : GoError)
  | crashed
deriving DecidableEq, Repr

/-- The `for` loop of `Tester.Run` over the loaded directive stream:
reporter calls made before a return or panic are kept. -/
def Tester.runLoop (env : RunEnv) (t : Tester) :
    List Query → LoopExit × Tester × List Report
  | [] => (.normal, t, [])
  | q :: qs =>
    match Tester.runStep env t q with
    | .ret e => (.errored e, t, [])
    | .panicked reps => (.crashed, t, reps)
    | .ok t' reps =>
      let rest := Tester.runLoop env t' qs
      (rest.1, rest.2.1, reps ++ rest.2.2)

/-- The tester states reached after each successive directive of the
stream (the states after every non-empty prefix), up to the point where the
loop returns early or the process panics. -/
def Tester.runStates (env : RunEnv) (t : Tester) : List Query → List Tester
  | [] => []
  | q :: qs =>
    match Tester.runStep env t q with
    | .ret _ => []
    | .panicked _ => []
    | .ok t' _ => t' :: Tester.runStates env t' qs

/-! ### Auxiliary predicates and concrete environments -/

/-- The scope-exclusivity invariant: not both only-flags at once. -/
def scopesExclusive (s : testerState) : Prop :=
  (s.vitessOnly && s.mysqlOnly) = false

/-- Whether a fallible result succeeded (Go `err == nil`). -/
def exceptOk {α : Type} : Except GoError α → Bool
  | .ok _ => true
  | .error _ => false

/-- The reporter calls made during one run-loop step. -/
def stepReports (r : StepResult) : List Report :=
  match r with
  | .ok _ reps => reps
  | .ret _ => []
  | .panicked reps => reps

/-- Whether a run-loop step let the loop continue to the next directive. -/
def stepContinues (r : StepResult) : Bool :=
  match r with
  | .ok _ _ => true
  | .ret _ => false
  | .panicked _ => false

/-- A concrete environment used to instantiate run-loop theorems. -/
def env0 : RunEnv where
  oracle := fun _ _ => true
  removeFile := fun _ => none
  parse := fun _ => .ok .selectStmt
  runnerErr := fun _ _ _ => none
  vexplainFetch := fun _ => .ok [["ok"]]
  waitAuth := fun _ => []

/-- Environment whose file removal fails. -/
def env4 : RunEnv :=
  { env0 with removeFile := fun _ => some ("no such file or directory") }

/-- Environment whose vexplain-variant execution fails. -/
def env5 : RunEnv :=
  { env0 with vexplainFetch := fun _ => .error ("vexplain failed") }

/-- A concrete tracer environment used to instantiate tracer theorems. -/
def tenv0 : TraceEnv where
  jsonMarshal := fun s => .ok ("\"" ++ s ++ "\"")
  vexplainFetch := fun _ => .ok [["42"]]
  jsonIndent := fun s => .ok s
  fileWrite := fun _ => none
  mysqlExec := fun _ => none
  innerRun := fun _ _ _ => none

/-- Tracer environment whose file write fails. -/
def tenvW : TraceEnv :=
  { tenv0 with fileWrite := fun _ => some ("disk full") }

/-- Tracer environment whose inner runner fails. -/
def tenvI : TraceEnv :=
  { tenv0 with innerRun := fun _ _ _ => some ("inner failed") }

/-! ### Mode state machine: theorems -/

/-- C5: `shouldSkip` evaluates and clears `skip` first, returning true if it
was set; otherwise, when a version gate is recorded it clears the gate
(`skipBinary` is emptied, deactivating it for every later query regardless
of the oracle's answer), asks the version oracle whether the recorded binary
is at least the recorded version, and returns true iff the requirement is
unmet; with no flags set it returns false and leaves the state unchanged. -/
theorem shouldSkip_spec (oracle : Int → String → Bool) (s : testerState) :
    (s.skip = true → s.shouldSkip oracle = (true, { s with skip := false })) ∧
    (s.skip = false → s.skipBinary ≠ "" →
      s.shouldSkip oracle =
        (!oracle s.skipVersion s.skipBinary, { s with skipBinary := "" })) ∧
    (s.skip = false → s.skipBinary = "" →
      s.shouldSkip oracle = (false, s)) := by
  refine ⟨?_, ?_, ?_⟩
  · intro h
    simp [testerState.shouldSkip, h]
  · intro h hb
    simp [testerState.shouldSkip, h, hb]
  · intro h hb
    simp [testerState.shouldSkip, h, hb]

/-- Witness for C5: a pending one-shot skip is consumed and cleared. -/
theorem shouldSkip_spec_witness :
    testerState.shouldSkip (fun _ _ => true) { skip := true } =
      (true, ({} : testerState)) :=
  (shouldSkip_spec (fun _ _ => true) { skip := true }).1 rfl

/-- C8: double-begin, end-without-begin and cross-nesting of the only-scopes
always return an error, and in every such error case the whole state (in
particular `vitessOnly` and `mysqlOnly`) is left unchanged. -/
theorem scope_errors_no_mutation (s : testerState) :
    (s.vitessOnly = true →
      s.beginVitessOnly.1.isSome = true ∧ s.beginVitessOnly.2 = s) ∧
    (s.mysqlOnly = true →
      s.beginVitessOnly.1.isSome = true ∧ s.beginVitessOnly.2 = s) ∧
    (s.vitessOnly = false →
      s.endVitessOnly.1.isSome = true ∧ s.endVitessOnly.2 = s) ∧
    (s.mysqlOnly = true →
      s.beginMySQLOnly.1.isSome = true ∧ s.beginMySQLOnly.2 = s) ∧
    (s.vitessOnly = true →
      s.beginMySQLOnly.1.isSome = true ∧ s.beginMySQLOnly.2 = s) ∧
    (s.mysqlOnly = false →
      s.endMySQLOnly.1.isSome = true ∧ s.endMySQLOnly.2 = s) := by
  obtain ⟨sk, sb, sv, vo, mo, re⟩ := s
  cases vo <;> cases mo <;>
    simp [testerState.beginVitessOnly, testerState.endVitessOnly,
      testerState.beginMySQLOnly, testerState.endMySQLOnly]

/-- Witness for C8: beginning `vitess_only` twice errors without mutation. -/
theorem scope_errors_no_mutation_witness :
    testerState.beginVitessOnly { vitessOnly := true } =
      (some ("nested vitess_only begin"), { vitessOnly := true }) := by
  have h := (scope_errors_no_mutation { vitessOnly := true }).1 rfl
  exact Prod.ext (by exact rfl) h.2

/-- C9: `skipNext` is a no-op when an only-scope or `reference` is set and
otherwise sets only `skip`; `referenceNext` is a no-op when an only-scope or
`skip` is set and otherwise sets only `reference`. -/
theorem skipNext_referenceNext_frame (s : testerState) :
    ((s.vitessOnly || s.mysqlOnly || s.reference) = true → s.skipNext = s) ∧
    ((s.vitessOnly || s.mysqlOnly || s.reference) = false →
      s.skipNext = { s with skip := true }) ∧
    ((s.vitessOnly || s.mysqlOnly || s.skip) = true → s.referenceNext = s) ∧
    ((s.vitessOnly || s.mysqlOnly || s.skip) = false →
      s.referenceNext = { s with reference := true }) := by
  refine ⟨?_, ?_, ?_, ?_⟩ <;> intro h <;>
    simp [testerState.skipNext, testerState.referenceNext, h]

/-- Witness for C9: a pending reference suppresses `skipNext` entirely. -/
theorem skipNext_referenceNext_frame_witness :
    testerState.skipNext { reference := true } = { reference := true } :=
  (skipNext_referenceNext_frame { reference := true }).1 rfl

/-! ### Run loop: scope exclusivity (C2) -/

/-- `skipNext` does not touch the only-scope flags. -/
theorem skipNext_scopes (s : testerState) :
    s.skipNext.vitessOnly = s.vitessOnly ∧ s.skipNext.mysqlOnly = s.mysqlOnly := by
  unfold testerState.skipNext
  split <;> simp

/-- `referenceNext` does not touch the only-scope flags. -/
theorem referenceNext_scopes (s : testerState) :
    s.referenceNext.vitessOnly = s.vitessOnly ∧
      s.referenceNext.mysqlOnly = s.mysqlOnly := by
  unfold testerState.referenceNext
  split <;> simp

/-- `shouldSkip` does not touch the only-scope flags. -/
theorem shouldSkip_scopes (oracle : Int → String → Bool) (s : testerState) :
    (s.shouldSkip oracle).2.vitessOnly = s.vitessOnly ∧
      (s.shouldSkip oracle).2.mysqlOnly = s.mysqlOnly := by
  unfold testerState.shouldSkip
  split
  · simp
  · split <;> simp

/-- `shouldReference` does not touch the only-scope flags. -/
theorem shouldReference_scopes (s : testerState) :
    s.shouldReference.2.vitessOnly = s.vitessOnly ∧
      s.shouldReference.2.mysqlOnly = s.mysqlOnly := by
  unfold testerState.shouldReference
  split <;> simp

/-- The four scope operations preserve the exclusivity invariant. -/
theorem scopeOps_preserve_excl (s : testerState) (h : scopesExclusive s) :
    scopesExclusive s.beginVitessOnly.2 ∧ scopesExclusive s.endVitessOnly.2 ∧
      scopesExclusive s.beginMySQLOnly.2 ∧ scopesExclusive s.endMySQLOnly.2 := by
  obtain ⟨sk, sb, sv, vo, mo, re⟩ := s
  cases vo <;> cases mo <;>
    simp_all [scopesExclusive, testerState.beginVitessOnly,
      testerState.endVitessOnly, testerState.beginMySQLOnly,
      testerState.endMySQLOnly]

/-- Any state `vitessOrMySQLOnly` can produce from handlers `b`, `e` is the
input state or an output of one of the handlers. -/
theorem vitessOrMySQLOnly_cases (query : String)
    (b e : testerState → Option GoError × testerState) (s : testerState) :
    (vitessOrMySQLOnly query b e s).2 = s ∨
      (vitessOrMySQLOnly query b e s).2 = (b s).2 ∨
      (vitessOrMySQLOnly query b e s).2 = (e s).2 := by
  unfold vitessOrMySQLOnly
  split <;> simp

/-- `Tester.runQuery` does not touch the only-scope flags. -/
theorem runQuery_scopes (env : RunEnv) (t : Tester) (q : Query) :
    (Tester.runQuery env t q).1.state.vitessOnly = t.state.vitessOnly ∧
      (Tester.runQuery env t q).1.state.mysqlOnly = t.state.mysqlOnly := by
  have h1 := shouldSkip_scopes env.oracle t.state
  have h2 := shouldReference_scopes (t.state.shouldSkip env.oracle).2
  unfold Tester.runQuery
  cases hsk : (t.state.shouldSkip env.oracle).1
  · cases hp : env.parse q.query with
    | error e => simp [hp, hsk, h1.1, h1.2]
    | ok ast => simp [hp, hsk, h1.1, h1.2, h2.1, h2.2]
  · simp [hsk, h1.1, h1.2]

/-- Every non-aborting run-loop step preserves scope exclusivity. -/
theorem runStep_scope_excl {env : RunEnv} {t : Tester} {q : Query}
    {t' : Tester} {reps : List Report}
    (hinv : scopesExclusive t.state)
    (hstep : Tester.runStep env t q = .ok t' reps) :
    scopesExclusive t'.state := by
  cases q with
  | mk query line type =>
    cases type with
    | query =>
      simp only [Tester.runStep] at hstep
      split at hstep
      · split at hstep
        · exact absurd hstep (by simp)
        · simp only [StepResult.ok.injEq] at hstep
          obtain ⟨h1, _⟩ := hstep; subst h1
          have h := runQuery_scopes env { t with vexplain := "" }
            { query := query, line := line, type := Typ.query }
          simpa [scopesExclusive, h.1, h.2] using hinv
      · simp only [StepResult.ok.injEq] at hstep
        obtain ⟨h1, _⟩ := hstep; subst h1
        have h := runQuery_scopes env t
          { query := query, line := line, type := Typ.query }
        simpa [scopesExclusive, h.1, h.2] using hinv
    | skip =>
      simp only [Tester.runStep, StepResult.ok.injEq] at hstep
      obtain ⟨h1, _⟩ := hstep; subst h1
      have h := skipNext_scopes t.state
      simpa [scopesExclusive, h.1, h.2] using hinv
    | skipIfBelowVersion =>
      simp only [Tester.runStep] at hstep
      split at hstep
      · split at hstep <;> simp only [StepResult.ok.injEq] at hstep <;>
          obtain ⟨h1, _⟩ := hstep <;> subst h1
        · exact hinv
        · simpa [scopesExclusive, testerState.skipIfBelow] using hinv
      · simp only [StepResult.ok.injEq] at hstep
        obtain ⟨h1, _⟩ := hstep; subst h1; exact hinv
    | error =>
      simp only [Tester.runStep, StepResult.ok.injEq] at hstep
      obtain ⟨h1, _⟩ := hstep; subst h1; exact hinv
    | vexplain =>
      simp only [Tester.runStep] at hstep
      split at hstep <;> simp only [StepResult.ok.injEq] at hstep <;>
        obtain ⟨h1, _⟩ := hstep <;> subst h1 <;> exact hinv
    | waitForAuthoritative =>
      simp only [Tester.runStep, StepResult.ok.injEq] at hstep
      obtain ⟨h1, _⟩ := hstep; subst h1; exact hinv
    | removeFile =>
      simp only [Tester.runStep] at hstep
      split at hstep
      · exact absurd hstep (by simp)
      · simp only [StepResult.ok.injEq] at hstep
        obtain ⟨h1, _⟩ := hstep; subst h1; exact hinv
    | vitessOnly =>
      have hops := scopeOps_preserve_excl t.state hinv
      simp only [Tester.runStep] at hstep
      split at hstep <;> simp only [StepResult.ok.injEq] at hstep <;>
        obtain ⟨h1, _⟩ := hstep <;> subst h1 <;>
        show scopesExclusive (vitessOrMySQLOnly query testerState.beginVitessOnly
          testerState.endVitessOnly t.state).2 <;>
        rcases vitessOrMySQLOnly_cases query testerState.beginVitessOnly
            testerState.endVitessOnly t.state with hc | hc | hc <;>
        rw [hc] <;>
        first
          | exact hinv
          | exact hops.1
          | exact hops.2.1
    | mysqlOnly =>
      have hops := scopeOps_preserve_excl t.state hinv
      simp only [Tester.runStep] at hstep
      split at hstep <;> simp only [StepResult.ok.injEq] at hstep <;>
        obtain ⟨h1, _⟩ := hstep <;> subst h1 <;>
        show scopesExclusive (vitessOrMySQLOnly query testerState.beginMySQLOnly
          testerState.endMySQLOnly t.state).2 <;>
        rcases vitessOrMySQLOnly_cases query testerState.beginMySQLOnly
            testerState.endMySQLOnly t.state with hc | hc | hc <;>
        rw [hc] <;>
        first
          | exact hinv
          | exact hops.2.2.1
          | exact hops.2.2.2
    | reference =>
      simp only [Tester.runStep, StepResult.ok.injEq] at hstep
      obtain ⟨h1, _⟩ := hstep; subst h1
      have h := referenceNext_scopes t.state
      simpa [scopesExclusive, h.1, h.2] using hinv
    | unsupported name =>
      simp only [Tester.runStep, StepResult.ok.injEq] at hstep
      obtain ⟨h1, _⟩ := hstep; subst h1; exact hinv

/-- Starting from a state satisfying scope exclusivity, every state the run
loop reaches satisfies it. -/
theorem runStates_scope_excl (env : RunEnv) (t : Tester) (ds : List Query)
    (hinv : scopesExclusive t.state) :
    ∀ t' ∈ Tester.runStates env t ds, scopesExclusive t'.state := by
  induction ds generalizing t with
  | nil => simp [Tester.runStates]
  | cons q qs ih =>
    intro t' ht'
    unfold Tester.runStates at ht'
    cases hstep : Tester.runStep env t q with
    | ret e => simp [hstep] at ht'
    | panicked reps => simp [hstep] at ht'
    | ok t1 reps =>
      simp only [hstep] at ht'
      have h1 : scopesExclusive t1.state := runStep_scope_excl hinv hstep
      rcases List.mem_cons.mp ht' with h | h
      · subst h; exact h1
      · exact ih t1 h1 t' h

/-- C2: starting from the fresh mode state, after any prefix of any
directive stream the flags `vitessOnly` and `mysqlOnly` are never
simultaneously true. -/
theorem run_loop_only_scopes_exclusive (env : RunEnv) (ds : List Query) :
    ∀ t' ∈ Tester.runStates env {} ds,
      ¬(t'.state.vitessOnly = true ∧ t'.state.mysqlOnly = true) := by
  intro t' ht' hboth
  have h := runStates_scope_excl env {} ds rfl t' ht'
  rw [scopesExclusive, hboth.1, hboth.2] at h
  exact Bool.true_eq_false.mp h

/-- Witness for C2 on the one-directive stream `[skip]`. -/
theorem run_loop_only_scopes_exclusive_witness :
    ¬((({ state := { skip := true } } : Tester)).state.vitessOnly = true ∧
      (({ state := { skip := true } } : Tester)).state.mysqlOnly = true) :=
  run_loop_only_scopes_exclusive env0
    [{ query := "", line := 1, type := .skip }]
    { state := { skip := true } } (by decide)

/-! ### Run loop: one-shot expectedError flag (C3) and error policy (C4) -/

/-- C3 counterexample: a query directive that is skipped (pending one-shot
skip) leaves `expectedErrs` set: the run-loop step returns with the flag
still true, refuting that the flag is false after every query directive. -/
theorem expectedErrs_not_cleared_on_skip :
    Tester.runStep env0 { state := { skip := true }, expectedErrs := true }
        { query := "select 1", line := 1, type := .query } =
      .ok { expectedErrs := true } [] := rfl

/-- C3 amended: after a query directive, `expectedErrs` is false whenever
the query was not skipped and parsed successfully (regardless of backend
success or failure); when the query is skipped or fails to parse, the flag
is left unchanged. -/
theorem expectedErrs_cleared_iff_dispatched (env : RunEnv) (t : Tester)
    (q : Query) :
    (((t.state.shouldSkip env.oracle).1 = false ∧
        exceptOk (env.parse q.query) = true) →
      (Tester.runQuery env t q).1.expectedErrs = false) ∧
    (((t.state.shouldSkip env.oracle).1 = true ∨
        exceptOk (env.parse q.query) = false) →
      (Tester.runQuery env t q).1.expectedErrs = t.expectedErrs) := by
  unfold Tester.runQuery
  cases hsk : (t.state.shouldSkip env.oracle).1
  · cases hp : env.parse q.query with
    | error e => simp [hsk, hp, exceptOk]
    | ok ast => simp [hsk, hp, exceptOk]
  · simp [hsk]

/-- Witness for the amended C3: a dispatched query clears the flag. -/
theorem expectedErrs_cleared_iff_dispatched_witness :
    (Tester.runQuery env0 { expectedErrs := true }
      { query := "select 1", line := 1 }).1.expectedErrs = false :=
  (expectedErrs_cleared_iff_dispatched env0 { expectedErrs := true }
    { query := "select 1", line := 1 }).1 ⟨rfl, rfl⟩

/-- C4 counterexample: a failed file removal aborts the whole run loop with
an error and reports nothing, refuting that per-directive errors are always
reported via the reporter and never abort the loop. -/
theorem remove_file_failure_aborts_loop :
    Tester.runLoop env4 {}
        [{ query := "nofile.txt", line := 1, type := .removeFile }] =
      (.errored ("failed to remove file: no such file or directory"), {}, []) :=
  rfl

/-- C4 amended: a failed file removal for a `RemoveFile` directive aborts
the loop by returning an error without reporting it via the reporter; a
failed explain-variant execution for a pending VExplain mode is reported
via `AddFailure`, but the process then panics (the nil fetch result is
dereferenced at the `VExplain Output` line) before the query runs, so that
path does not continue either; every other directive handling continues to
the next directive, reporting its errors via the reporter. -/
theorem per_directive_errors_amended (env : RunEnv) (t : Tester) (q : Query) :
    ((q.type ≠ .removeFile ∧ (q.type = .query → t.vexplain ≠ "" →
        exceptOk (env.vexplainFetch
          ("vexplain " ++ t.vexplain ++ " " ++ q.query)) = true)) →
      stepContinues (Tester.runStep env t q) = true) ∧
    (∀ e, q.type = .removeFile → env.removeFile q.query.trim = some e →
      Tester.runStep env t q = .ret ("failed to remove file: " ++ e)) ∧
    (∀ e, q.type = .query → t.vexplain ≠ "" →
      env.vexplainFetch ("vexplain " ++ t.vexplain ++ " " ++ q.query) =
        .error e →
      Tester.runStep env t q = .panicked [.addFailure e]) := by
  refine ⟨?_, ?_, ?_⟩
  · intro hne
    obtain ⟨hrm, hvex⟩ := hne
    cases q with
    | mk query line type =>
      cases type with
      | query =>
        by_cases hv : t.vexplain = ""
        · simp [Tester.runStep, hv, stepContinues]
        · have hfe : exceptOk (env.vexplainFetch
              ("vexplain " ++ t.vexplain ++ " " ++ query)) = true :=
            hvex rfl hv
          cases hf : env.vexplainFetch
              ("vexplain " ++ t.vexplain ++ " " ++ query) with
          | error e => rw [hf] at hfe; simp [exceptOk] at hfe
          | ok rows => simp [Tester.runStep, hv, hf, stepContinues]
      | removeFile => exact absurd rfl hrm
      | _ =>
        simp only [Tester.runStep] <;>
          first
            | rfl
            | ((repeat' split) <;> rfl)
  · intro e hq hrm
    cases q with
    | mk query line type =>
      cases type <;> simp at hq
      simp only [Tester.runStep]
      simp only [Query.query] at hrm
      simp [hrm]
  · intro e hq hv hfetch
    cases q with
    | mk query line type =>
      cases type <;> simp at hq
      simp only [Tester.runStep]
      simp only [Query.query] at hfetch
      simp [hv, hfetch]

/-- Witness for the amended C4: a failing vexplain-variant execution is
reported via `AddFailure` and the step ends in a panic, not a continue. -/
theorem per_directive_errors_amended_witness :
    Tester.runStep env5 { vexplain := "trace" }
        { query := "select 1", line := 2 } =
      .panicked [.addFailure ("vexplain failed")] :=
  (per_directive_errors_amended env5 { vexplain := "trace" }
      { query := "select 1", line := 2 }).2.2 ("vexplain failed") rfl
    (by decide) rfl

/-! ### Trace recorder: entry format (C6) and failed-write flag (C10) -/

/-- C6: a successful trace capture issues the statement prefixed with the
explain-trace variant (`vexplain trace <query>`) against the target
connection, takes the first result cell as the payload, pretty-indents it
(`jsonIndent`), and appends exactly one JSON entry
`{"Query": <json-escaped text>, "LineNumber": "<n>", "Trace": <payload>}`
to the trace file, preceded by a comma iff an entry had been recorded
before it (the `alreadyWrittenTraces` flag); the last conjunct makes the
comma prefix explicit. -/
theorem trace_entry_format (env : TraceEnv) (t : TracerState) (q : Query)
    (qjson pretty : String) (rows : List (List String))
    (hmar : env.jsonMarshal q.query = .ok qjson)
    (hfetch : env.vexplainFetch ("vexplain trace " ++ q.query) = .ok rows)
    (hind : env.jsonIndent (firstCell rows) = .ok pretty)
    (hwr : env.fileWrite
      (traceEntryFor t.alreadyWrittenTraces qjson q.line pretty) = none) :
    Tracer.trace env t q =
      (none,
        { t with
            alreadyWrittenTraces := true
            fileContents := t.fileContents ++
              traceEntryFor t.alreadyWrittenTraces qjson q.line pretty },
        [.execTarget ("vexplain trace " ++ q.query),
          .fileWrite (traceEntryFor t.alreadyWrittenTraces qjson q.line pretty)]) ∧
    (∀ qj l pr, traceEntryFor true qj l pr =
        "," ++ traceEntryBody qj l pr ∧
      traceEntryFor false qj l pr = traceEntryBody qj l pr) := by
  constructor
  · unfold Tracer.trace
    simp [hmar, hfetch, hind, hwr]
  · intro qj l pr
    exact ⟨rfl, rfl⟩

/-- Witness for C6 at a concrete query and environment. -/
theorem trace_entry_format_witness :
    Tracer.trace tenv0 {} { query := "select 1", line := 7 } =
      (none,
        { alreadyWrittenTraces := true,
          fileContents := traceEntryFor false ("\"select 1\"") 7 ("42") },
        [.execTarget ("vexplain trace " ++ "select 1"),
          .fileWrite (traceEntryFor false ("\"select 1\"") 7 ("42"))]) :=
  (trace_entry_format tenv0 {} { query := "select 1", line := 7 }
    ("\"select 1\"") ("42") [["42"]] rfl rfl rfl rfl).1

/-- C10: when the trace-file write fails, `alreadyWrittenTraces` has been
set before the attempt, so the error is returned with the flag true and the
file contents unchanged; a subsequent successful entry (built from the
resulting state's flag) is therefore comma-prefixed even though the failed
entry's bytes are absent. -/
theorem trace_flag_true_after_failed_write (env : TraceEnv) (t : TracerState)
    (q : Query) (qjson pretty : String) (rows : List (List String))
    (e : GoError)
    (hmar : env.jsonMarshal q.query = .ok qjson)
    (hfetch : env.vexplainFetch ("vexplain trace " ++ q.query) = .ok rows)
    (hind : env.jsonIndent (firstCell rows) = .ok pretty)
    (hwr : env.fileWrite
      (traceEntryFor t.alreadyWrittenTraces qjson q.line pretty) = some e) :
    Tracer.trace env t q =
      (some e, { t with alreadyWrittenTraces := true },
        [.execTarget ("vexplain trace " ++ q.query),
          .fileWrite (traceEntryFor t.alreadyWrittenTraces qjson q.line pretty)]) ∧
    (Tracer.trace env t q).2.1.fileContents = t.fileContents ∧
    (∀ qj l pr,
      traceEntryFor (Tracer.trace env t q).2.1.alreadyWrittenTraces qj l pr =
        "," ++ traceEntryBody qj l pr) := by
  have h : Tracer.trace env t q =
      (some e, { t with alreadyWrittenTraces := true },
        [.execTarget ("vexplain trace " ++ q.query),
          .fileWrite (traceEntryFor t.alreadyWrittenTraces qjson q.line pretty)]) := by
    unfold Tracer.trace
    simp [hmar, hfetch, hind, hwr]
  refine ⟨h, ?_, ?_⟩
  · rw [h]
  · intro qj l pr
    simp [h, traceEntryFor]

/-- Witness for C10: a failed write leaves the flag set with no bytes. -/
theorem trace_flag_true_after_failed_write_witness :
    Tracer.trace tenvW {} { query := "select 1", line := 7 } =
      (some ("disk full"), { alreadyWrittenTraces := true },
        [.execTarget ("vexplain trace " ++ "select 1"),
          .fileWrite (traceEntryFor false ("\"select 1\"") 7 ("42"))]) :=
  (trace_flag_true_after_failed_write tenvW {} { query := "select 1", line := 7 }
    ("\"select 1\"") ("42") [["42"]] ("disk full") rfl rfl rfl rfl).1

/-! ### Trace recorder: dispatch paths (C1, C7) -/

/-- `countTarget` distributes over concatenation. -/
theorem countTarget_append (a b : List Event) :
    countTarget (a ++ b) = countTarget a + countTarget b := by
  induction a with
  | nil => simp [countTarget]
  | cons e es ih => cases e <;> simp [countTarget, ih] <;> omega

/-- `countMySQL` distributes over concatenation. -/
theorem countMySQL_append (a b : List Event) :
    countMySQL (a ++ b) = countMySQL a + countMySQL b := by
  induction a with
  | nil => simp [countMySQL]
  | cons e es ih => cases e <;> simp [countMySQL, ih] <;> omega

/-- `countInner` distributes over concatenation. -/
theorem countInner_append (a b : List Event) :
    countInner (a ++ b) = countInner a + countInner b := by
  induction a with
  | nil => simp [countInner]
  | cons e es ih => cases e <;> simp [countInner, ih] <;> omega

/-- The events of one `Tracer.trace` call: no reference-backend execution,
no inner-runner invocation, and exactly one target-backend execution
whenever the query marshalled successfully. -/
theorem trace_events (env : TraceEnv) (t : TracerState) (q : Query) :
    countMySQL (Tracer.trace env t q).2.2 = 0 ∧
    countInner (Tracer.trace env t q).2.2 = 0 ∧
    (exceptOk (env.jsonMarshal q.query) = true →
      countTarget (Tracer.trace env t q).2.2 = 1) := by
  unfold Tracer.trace
  cases hm : env.jsonMarshal q.query with
  | error e => simp [hm, countMySQL, countInner, countTarget, exceptOk]
  | ok qjson =>
    cases hf : env.vexplainFetch ("vexplain trace " ++ q.query) with
    | error e => simp [hm, hf, countMySQL, countInner, countTarget]
    | ok rows =>
      cases hi : env.jsonIndent (firstCell rows) with
      | error e => simp [hm, hf, hi, countMySQL, countInner, countTarget]
      | ok pretty =>
        cases hw : env.fileWrite
            (traceEntryFor t.alreadyWrittenTraces qjson q.line pretty) with
        | some e => simp [hm, hf, hi, hw, countMySQL, countInner, countTarget]
        | none => simp [hm, hf, hi, hw, countMySQL, countInner, countTarget]

/-- C1: a data-modifying statement dispatched while a trace file is open,
not expected to error, and with the target in scope, is executed exactly
once against the target (via the trace capture), additionally executed once
against the reference backend iff the reference is in scope, never reaches
the inner runner, and the returned error is the aggregate of the errors of
the two attempts. (The marshal hypothesis reflects that `json.Marshal` of a
plain string never fails.) -/
theorem tracer_dml_single_execution (env : TraceEnv) (t : TracerState)
    (q : Query) (expectErr : Bool) (cfg : QueryRunConfig)
    (hdml : IsDMLStatement cfg.ast = true) (hopen : t.traceFileOpen = true)
    (hexp : expectErr = false) (hvit : cfg.vitess = true)
    (hmar : exceptOk (env.jsonMarshal q.query) = true) :
    countTarget (Tracer.runQuery env t q expectErr cfg).2.2 = 1 ∧
    countMySQL (Tracer.runQuery env t q expectErr cfg).2.2 =
      (if cfg.mysql then 1 else 0) ∧
    countInner (Tracer.runQuery env t q expectErr cfg).2.2 = 0 ∧
    (Tracer.runQuery env t q expectErr cfg).1 =
      Aggregate (optToList (Tracer.trace env t q).1 ++
        (if cfg.mysql then optToList (env.mysqlExec q.query) else [])) := by
  have hguard :
      (IsDMLStatement cfg.ast && t.traceFileOpen && !expectErr && cfg.vitess)
        = true := by
    rw [hdml, hopen, hexp, hvit]; rfl
  have hev := trace_events env t q
  have htgt := hev.2.2 hmar
  unfold Tracer.runQuery
  rw [hguard]
  cases hmy : cfg.mysql
  · simp [hmy, htgt, hev.1, hev.2.1]
  · cases hme : env.mysqlExec q.query with
    | some e =>
      simp [hmy, hme, countTarget_append, countMySQL_append,
        countInner_append, countTarget, countMySQL, countInner,
        htgt, hev.1, hev.2.1, optToList]
    | none =>
      simp [hmy, hme, countTarget_append, countMySQL_append,
        countInner_append, countTarget, countMySQL, countInner,
        htgt, hev.1, hev.2.1, optToList]

/-- Witness for C1: an insert with both backends in scope. -/
theorem tracer_dml_single_execution_witness :
    countTarget (Tracer.runQuery tenv0 {} { query := "insert into t values (1)", line := 3 }
      false { ast := .insertStmt, vitess := true, mysql := true, reference := false }).2.2
      = 1 :=
  (tracer_dml_single_execution tenv0 {}
    { query := "insert into t values (1)", line := 3 } false
    { ast := .insertStmt, vitess := true, mysql := true, reference := false }
    rfl rfl rfl rfl rfl).1

/-- C7: outside the data-modifying interception path the tracer delegates
to the inner runner first; an inner-runner error (or a statement that is
neither select nor DML, or target out of scope) returns the inner result
unchanged with no trace; otherwise a trace capture is performed afterward
and its outcome returned. -/
theorem tracer_delegation_path (env : TraceEnv) (t : TracerState) (q : Query)
    (expectErr : Bool) (cfg : QueryRunConfig)
    (hguard :
      (IsDMLStatement cfg.ast && t.traceFileOpen && !expectErr && cfg.vitess)
        = false) :
    (Tracer.runQuery env t q expectErr cfg).2.2.head? =
      some (.innerRun q.query) ∧
    countInner (Tracer.runQuery env t q expectErr cfg).2.2 = 1 ∧
    (∀ e, env.innerRun q expectErr cfg = some e →
      Tracer.runQuery env t q expectErr cfg = (some e, t, [.innerRun q.query])) ∧
    (env.innerRun q expectErr cfg = none →
      ((cfg.vitess && (isSelectStatement cfg.ast || IsDMLStatement cfg.ast))
          = true →
        Tracer.runQuery env t q expectErr cfg =
          ((Tracer.trace env t q).1, (Tracer.trace env t q).2.1,
            .innerRun q.query :: (Tracer.trace env t q).2.2)) ∧
      ((cfg.vitess && (isSelectStatement cfg.ast || IsDMLStatement cfg.ast))
          = false →
        Tracer.runQuery env t q expectErr cfg =
          (none, t, [.innerRun q.query]))) := by
  have hev := trace_events env t q
  unfold Tracer.runQuery
  rw [hguard]
  cases hir : env.innerRun q expectErr cfg with
  | some e => simp [countInner]
  | none =>
    cases hsel : (cfg.vitess &&
        (isSelectStatement cfg.ast || IsDMLStatement cfg.ast)) with
    | true => simp [hsel, countInner, hev.2.1]
    | false => simp [hsel, countInner]

/-- Witness for C7: a select with a failing inner runner is returned
unchanged. -/
theorem tracer_delegation_path_witness :
    Tracer.runQuery tenvI {} { query := "select 1", line := 4 } false
        { ast := .selectStmt, vitess := true, mysql := true, reference := false } =
      (some ("inner failed"), {}, [.innerRun ("select 1")]) :=
  (tracer_delegation_path tenvI {} { query := "select 1", line := 4 } false
    { ast := .selectStmt, vitess := true, mysql := true, reference := false }
    rfl).2.2.1 ("inner failed") rfl

end VT
